import Mathlib

/-!
Verification development for the DeviceKeyHelperRK library
(src/src/DeviceKeyHelperRK.cpp): a shallow embedding of the backup-record
codec (`calculateChecksum`, `validateData`), the key comparator/restorer
(`DeviceKeyHelper::check`) and the connectivity monitor
(`DeviceKeyHelper::eventHandler`), together with theorems about the
claims of the specification.

Machine integers are modelled as `Nat` with explicit `% 2^16` where the
C code wraps (the `uint16_t` checksum accumulator).  The platform
constants `DATA_HEADER_MAGIC` and `DEVICE_KEYS_HELPER_SIZE` come from the
library header, which fixes them per platform; here they are parameters
`MAGIC` and `SIZE` of every definition.  Side effects of `check`
(writing the live key region via `dct_write_app_data`, saving a backup
record via the `save` callback, requesting a restart via `System.reset`)
are recorded in the `CheckResult` structure; the application-supplied
`load` callback is modelled by its observable behaviour: the `Bool` it
returns and the contents it leaves in the freshly allocated
(zero-initialized) record buffer.
-/

namespace DeviceKeyHelperRK

/-- Backup record layout stored by the library (`DeviceKeyHelperSavedData`):
magic word, declared size, 16-bit checksum `sum`, and the key payload
bytes `keys` (a fixed `SIZE`-byte array in C, here a byte list). -/
structure SavedData where
  magic : Nat
  size : Nat
  sum : Nat
  keys : List Nat
  deriving DecidableEq, Repr

/-- The four check modes of `DeviceKeyHelper::check`. -/
inductive CheckMode where
  | CHECKMODE_CHECK_ONLY
  | CHECKMODE_AUTOMATIC
  | CHECKMODE_AUTOMATIC_NO_RESTART
  | CHECKMODE_SAVE_CURRENT
  deriving DecidableEq, Repr

/-- The first `SIZE` bytes of a buffer, reading a byte `0` out of bounds
(the C code always works on buffers of exactly `SIZE` bytes, where this
is the identity). -/
def regionBytes (SIZE : Nat) (buf : List Nat) : List Nat :=
  (List.range SIZE).map (fun ii => buf.getD ii 0)

/-- The checksum loop of `DeviceKeyHelper::calculateChecksum`: a
`uint16_t` accumulator summing the first `SIZE` bytes, wrapping modulo
`2^16` at every addition. -/
def checksumBytes (SIZE : Nat) (buf : List Nat) : Nat :=
  (List.range SIZE).foldl (fun sum ii => (sum + buf.getD ii 0) % 65536) 0

/-- `DeviceKeyHelper::calculateChecksum`: 16-bit sum of the record's
payload bytes. -/
def calculateChecksum (SIZE : Nat) (savedData : SavedData) : Nat :=
  checksumBytes SIZE savedData.keys

/-- `memcmp(a, b, SIZE) == 0`: the first `SIZE` bytes of the two
buffers agree. -/
def memcmpEq (SIZE : Nat) (a b : List Nat) : Bool :=
  (List.range SIZE).all (fun ii => a.getD ii 0 == b.getD ii 0)

/-- `DeviceKeyHelper::validateData`: the record is rejected when the
magic word or the declared size is wrong, then when the stored checksum
differs from the recomputed one; otherwise it is accepted. -/
def validateData (MAGIC SIZE : Nat) (savedData : SavedData) : Bool :=
  if savedData.magic ≠ MAGIC ∨ savedData.size ≠ SIZE then false
  else if savedData.sum ≠ calculateChecksum SIZE savedData then false
  else true

/-- Outcome of the load/validate/compare part of `check` (lines 41-84 of
the source): the `result` variable, the bytes written onto the live key
region by `dct_write_app_data` (if any), whether `System.reset` was
called, and the value of the `saveKeys` flag afterwards. -/
structure MainOutcome where
  result : Bool
  liveWritten : Option (List Nat)
  restartRequested : Bool
  saveKeys : Bool
  deriving DecidableEq, Repr

/-- The load/validate/compare part of `DeviceKeyHelper::check`:
if the load callback succeeded and the record validates, a
`SaveCurrent` call forces a save; otherwise a byte-for-byte comparison
of the live region against the payload decides between "unchanged"
(no action) and "changed" (restore in the automatic modes, restart in
`Automatic`, report only in `CheckOnly`).  A failed load or an invalid
record just marks the keys for saving. -/
def mainBranch (MAGIC SIZE : Nat) (checkMode : CheckMode) (onDevice : List Nat)
    (loadOk : Bool) (loaded : SavedData) : MainOutcome :=
  if loadOk then
    if validateData MAGIC SIZE loaded then
      if checkMode = CheckMode.CHECKMODE_SAVE_CURRENT then
        { result := true, liveWritten := none, restartRequested := false, saveKeys := true }
      else if memcmpEq SIZE onDevice loaded.keys then
        { result := true, liveWritten := none, restartRequested := false, saveKeys := false }
      else if checkMode = CheckMode.CHECKMODE_CHECK_ONLY then
        { result := false, liveWritten := none, restartRequested := false, saveKeys := false }
      else if checkMode = CheckMode.CHECKMODE_AUTOMATIC_NO_RESTART then
        { result := false, liveWritten := some (regionBytes SIZE loaded.keys),
          restartRequested := false, saveKeys := false }
      else
        { result := false, liveWritten := some (regionBytes SIZE loaded.keys),
          restartRequested := true, saveKeys := false }
    else
      { result := true, liveWritten := none, restartRequested := false, saveKeys := true }
  else
    { result := true, liveWritten := none, restartRequested := false, saveKeys := true }

/-- The skip test guarding the save (lines 86-95 of the source): the save
is skipped when the record left in the buffer by the load callback
already has the right magic, size and checksum and its payload equals
the live region byte-for-byte. -/
def skipMatches (MAGIC SIZE : Nat) (loaded : SavedData) (onDevice : List Nat) : Bool :=
  loaded.magic == MAGIC && loaded.size == SIZE &&
    loaded.sum == calculateChecksum SIZE loaded &&
    memcmpEq SIZE loaded.keys onDevice

/-- The record built by the save path (lines 97-107 of the source): the
live-region bytes are copied into the payload, the magic and size are
set, and the checksum is computed over the record after those
mutations. -/
def freshRecord (MAGIC SIZE : Nat) (loaded : SavedData) (onDevice : List Nat) : SavedData :=
  let sd0 : SavedData :=
    { magic := MAGIC, size := SIZE, sum := loaded.sum, keys := regionBytes SIZE onDevice }
  { sd0 with sum := calculateChecksum SIZE sd0 }

/-- Observable outcome of one `DeviceKeyHelper::check` call: the returned
`Bool`, the bytes written to the live key region (if any), the record
passed to the `save` callback (if any), and whether a restart was
requested. -/
structure CheckResult where
  result : Bool
  liveWritten : Option (List Nat)
  savedRecord : Option SavedData
  restartRequested : Bool
  deriving DecidableEq, Repr

/-- `DeviceKeyHelper::check`.  `allocOnDevice` and `allocSaved` model the
two heap allocations (on failure the function returns `true` having done
nothing).  `onDevice` is the live key region read by
`dct_read_app_data_copy`; `loadOk` and `loaded` are the return value of
the `load` callback and the record contents it leaves in the
zero-initialized buffer. -/
def check (MAGIC SIZE : Nat) (checkMode : CheckMode) (allocOnDevice allocSaved : Bool)
    (onDevice : List Nat) (loadOk : Bool) (loaded : SavedData) : CheckResult :=
  if allocOnDevice && allocSaved then
    { result := (mainBranch MAGIC SIZE checkMode onDevice loadOk loaded).result
      liveWritten := (mainBranch MAGIC SIZE checkMode onDevice loadOk loaded).liveWritten
      savedRecord :=
        if (mainBranch MAGIC SIZE checkMode onDevice loadOk loaded).saveKeys
            && !(skipMatches MAGIC SIZE loaded onDevice)
        then some (freshRecord MAGIC SIZE loaded onDevice) else none
      restartRequested := (mainBranch MAGIC SIZE checkMode onDevice loadOk loaded).restartRequested }
  else
    { result := true, liveWritten := none, savedRecord := none, restartRequested := false }

/-- Modelled from the spec: the Storage Port's `loadBackup`/`saveBackup`
pair (the application-supplied `load`/`save` callbacks, whose
implementation is not part of this repository).  A load returns the most
recently saved record; with nothing saved it fails and leaves the
zero-initialized record buffer untouched. -/
def loadFromStore (SIZE : Nat) (store : Option SavedData) : Bool × SavedData :=
  match store with
  | some sd => (true, sd)
  | none => (false, { magic := 0, size := 0, sum := 0, keys := List.replicate SIZE 0 })

/-- Modelled from the spec: the backup store after a `check` call is the
record it saved, if it saved one. -/
def storeAfterCheck (store : Option SavedData) (r : CheckResult) : Option SavedData :=
  match r.savedRecord with
  | some sd => some sd
  | none => store

/-- One `check` call against the Storage Port model: the call's outcome
together with the backup store afterwards. -/
def checkWithStore (MAGIC SIZE : Nat) (checkMode : CheckMode) (onDevice : List Nat)
    (store : Option SavedData) : CheckResult × Option SavedData :=
  let r := check MAGIC SIZE checkMode true true onDevice
    (loadFromStore SIZE store).1 (loadFromStore SIZE store).2
  (r, storeAfterCheck store r)

/-- The `cloud_status` event parameters handled by
`DeviceKeyHelper::eventHandler`. -/
inductive CloudStatusParam where
  | connecting
  | connected
  | disconnected
  deriving DecidableEq, Repr

/-- Platform actions the event handler can trigger. -/
inductive Action where
  | checkSaveCurrent
  | requestDisconnect
  | checkAutomatic
  | requestRestart
  deriving DecidableEq, Repr

/-- The diagnostic capability of the platform build: `noSupport` is a
build with `SYSTEM_VERSION < 0x00080000` (the failure-counter fallback),
`unavailable` is a diagnostic-capable build where `getSystemDiagValue`
returns false, and `value v` one where it yields the cloud-connection
error code `v`. -/
inductive DiagSupport where
  | noSupport
  | unavailable
  | value (v : Int)
  deriving DecidableEq, Repr

/-- The monitor's member state: the `connected` flag and the
`failureCount` counter. -/
structure MonitorState where
  connected : Bool
  failureCount : Nat
  deriving DecidableEq, Repr

/-- The recovery sequence of lines 168-174 / 184-190 of the source:
`Particle.disconnect()`, then `check(CHECKMODE_AUTOMATIC)`, then the
unconditional `System.reset()` safety net. -/
def recoverySequence : List Action :=
  [Action.requestDisconnect, Action.checkAutomatic, Action.requestRestart]

/-- `DeviceKeyHelper::eventHandler` on a `cloud_status` event: the new
monitor state and the platform actions triggered.  A `connecting` event
clears the `connected` flag; a `connected` event sets it, zeroes the
failure counter and runs `check(CHECKMODE_SAVE_CURRENT)`; a
`disconnected` event does something only while `connected` is false:
with a keys-error diagnostic code (26 or 10) it runs the recovery
sequence at once, without diagnostic support it increments
`failureCount` and runs the recovery sequence whenever the counter has
reached 3. -/
def eventHandler (diag : DiagSupport) (st : MonitorState) (param : CloudStatusParam) :
    MonitorState × List Action :=
  match param with
  | CloudStatusParam.connecting => ({ st with connected := false }, [])
  | CloudStatusParam.connected =>
      ({ st with connected := true, failureCount := 0 }, [Action.checkSaveCurrent])
  | CloudStatusParam.disconnected =>
      if st.connected then (st, [])
      else
        match diag with
        | DiagSupport.noSupport =>
            if st.failureCount + 1 ≥ 3 then
              ({ st with failureCount := st.failureCount + 1 }, recoverySequence)
            else
              ({ st with failureCount := st.failureCount + 1 }, [])
        | DiagSupport.unavailable => (st, [])
        | DiagSupport.value v =>
            if v = 26 ∨ v = 10 then (st, recoverySequence) else (st, [])

/-- Deliver a list of events to the handler in order, collecting the
actions triggered by each event. -/
def runEvents (diag : DiagSupport) (st : MonitorState) :
    List CloudStatusParam → MonitorState × List (List Action)
  | [] => (st, [])
  | e :: es =>
      let step := eventHandler diag st e
      let rest := runEvents diag step.1 es
      (rest.1, step.2 :: rest.2)

/-! ## Helper lemmas -/

/-- Folding wrap-around 16-bit addition over a list from an in-range
accumulator is the plain sum modulo `2^16`. -/
theorem foldl_mod_add (l : List Nat) (a : Nat) (h : a < 65536) :
    l.foldl (fun s b => (s + b) % 65536) a = (a + l.sum) % 65536 := by
  induction l generalizing a with
  | nil => simp [Nat.mod_eq_of_lt h]
  | cons b t ih =>
      simp only [List.foldl_cons, List.sum_cons]
      rw [ih _ (Nat.mod_lt _ (by norm_num)), Nat.mod_add_mod, Nat.add_assoc]

/-- The checksum loop computes the sum of the first `SIZE` bytes modulo
`2^16`. -/
theorem checksumBytes_eq_sum (SIZE : Nat) (buf : List Nat) :
    checksumBytes SIZE buf = (regionBytes SIZE buf).sum % 65536 := by
  unfold checksumBytes regionBytes
  have hmap := List.foldl_map (fun ii => buf.getD ii 0)
    (fun sum b => (sum + b) % 65536) (List.range SIZE) 0
  rw [← hmap, foldl_mod_add _ 0 (by norm_num), Nat.zero_add]

theorem regionBytes_length (SIZE : Nat) (buf : List Nat) :
    (regionBytes SIZE buf).length = SIZE := by
  simp [regionBytes]

theorem regionBytes_getD (SIZE : Nat) (buf : List Nat) (ii : Nat) (h : ii < SIZE) :
    (regionBytes SIZE buf).getD ii 0 = buf.getD ii 0 := by
  simp [regionBytes, List.getD_eq_getElem?_getD, List.getElem?_map, List.getElem?_range, h]

/-- On a buffer of exactly `SIZE` bytes, reading out the first `SIZE`
bytes is the identity. -/
theorem regionBytes_self (buf : List Nat) : regionBytes buf.length buf = buf := by
  apply List.ext_getElem
  · simp [regionBytes]
  · intro ii h1 h2
    simp [regionBytes, List.getD_eq_getElem?_getD, List.getElem?_eq_getElem h2]

/-- The first `SIZE` bytes of `regionBytes SIZE buf` agree with `buf`. -/
theorem memcmpEq_regionBytes (SIZE : Nat) (buf : List Nat) :
    memcmpEq SIZE (regionBytes SIZE buf) buf = true := by
  unfold memcmpEq
  rw [List.all_eq_true]
  intro ii hmem
  rw [regionBytes_getD SIZE buf ii (List.mem_range.mp hmem)]
  exact beq_self_eq_true _

/-- The record written by the save path always passes the skip test
against the same live region. -/
theorem skipMatches_fresh (MAGIC SIZE : Nat) (loaded : SavedData) (onDevice : List Nat) :
    skipMatches MAGIC SIZE (freshRecord MAGIC SIZE loaded onDevice) onDevice = true := by
  simp [skipMatches, freshRecord, calculateChecksum, memcmpEq_regionBytes]

/-- In `SaveCurrent` mode the main branch always marks the keys for
saving. -/
theorem mainBranch_saveCurrent_saveKeys (MAGIC SIZE : Nat) (onDevice : List Nat)
    (loadOk : Bool) (loaded : SavedData) :
    (mainBranch MAGIC SIZE CheckMode.CHECKMODE_SAVE_CURRENT onDevice loadOk loaded).saveKeys
      = true := by
  cases loadOk <;> by_cases hv : validateData MAGIC SIZE loaded = true <;>
    simp [mainBranch, hv]

/-- Whatever `check` hands to the save callback is the fresh record built
from the live region. -/
theorem check_savedRecord_some (MAGIC SIZE : Nat) (checkMode : CheckMode)
    (a1 a2 : Bool) (onDevice : List Nat) (loadOk : Bool) (loaded : SavedData) (R : SavedData)
    (h : (check MAGIC SIZE checkMode a1 a2 onDevice loadOk loaded).savedRecord = some R) :
    R = freshRecord MAGIC SIZE loaded onDevice := by
  unfold check at h
  split at h
  · simp only at h
    split at h
    · exact (Option.some.injEq _ _ ▸ h.symm)
    · exact absurd h (by simp)
  · exact absurd h (by simp)

/-- A `SaveCurrent` check whose load returns a freshly written record of
the same live region saves nothing. -/
theorem check_fresh_no_save (MAGIC SIZE : Nat) (onDevice : List Nat) (ld : SavedData) :
    (check MAGIC SIZE CheckMode.CHECKMODE_SAVE_CURRENT true true onDevice true
      (freshRecord MAGIC SIZE ld onDevice)).savedRecord = none := by
  simp [check, skipMatches_fresh]

/-! ## Claims -/

/-- Claim C1: in every invocation of `check`, in every mode and for every
storage state, the live key region is overwritten only when the loaded
backup record passed `validateData`; a backup that is absent, fails to
load, or fails validation is never restored onto the live region. -/
theorem c1_live_write_only_if_valid (MAGIC SIZE : Nat) (checkMode : CheckMode)
    (a1 a2 : Bool) (onDevice : List Nat) (loadOk : Bool) (loaded : SavedData)
    (h : (check MAGIC SIZE checkMode a1 a2 onDevice loadOk loaded).liveWritten ≠ none) :
    loadOk = true ∧ validateData MAGIC SIZE loaded = true := by
  cases a1 <;> cases a2 <;> cases loadOk <;> cases checkMode <;>
    by_cases hv : validateData MAGIC SIZE loaded = true <;>
    by_cases hc : memcmpEq SIZE onDevice loaded.keys = true <;>
    simp_all [check, mainBranch]

/-- Witness for C1: a concrete diverging state where the live region is
written, and indeed the load succeeded and the record validates. -/
theorem c1_witness :
    true = true ∧ validateData 1 1 ⟨1, 1, 3, [3]⟩ = true :=
  c1_live_write_only_if_valid 1 1 CheckMode.CHECKMODE_AUTOMATIC true true [2] true
    ⟨1, 1, 3, [3]⟩ (by decide)

/-- Claim C2: with a valid backup whose payload differs from the live
region, `check(Automatic)` overwrites the live region with the backup
payload, returns false and requests a restart; `check(AutomaticNoRestart)`
performs the same overwrite and returns false without a restart
request. -/
theorem c2_divergence_restore (MAGIC SIZE : Nat) (onDevice : List Nat) (loaded : SavedData)
    (hv : validateData MAGIC SIZE loaded = true)
    (hc : memcmpEq SIZE onDevice loaded.keys = false) :
    check MAGIC SIZE CheckMode.CHECKMODE_AUTOMATIC true true onDevice true loaded =
      { result := false, liveWritten := some (regionBytes SIZE loaded.keys),
        savedRecord := none, restartRequested := true } ∧
    check MAGIC SIZE CheckMode.CHECKMODE_AUTOMATIC_NO_RESTART true true onDevice true loaded =
      { result := false, liveWritten := some (regionBytes SIZE loaded.keys),
        savedRecord := none, restartRequested := false } := by
  constructor <;> simp [check, mainBranch, hv, hc]

/-- Witness for C2: a concrete valid, diverging backup. -/
theorem c2_witness :
    check 1 1 CheckMode.CHECKMODE_AUTOMATIC true true [2] true ⟨1, 1, 3, [3]⟩ =
      { result := false, liveWritten := some (regionBytes 1 [3]),
        savedRecord := none, restartRequested := true } ∧
    check 1 1 CheckMode.CHECKMODE_AUTOMATIC_NO_RESTART true true [2] true ⟨1, 1, 3, [3]⟩ =
      { result := false, liveWritten := some (regionBytes 1 [3]),
        savedRecord := none, restartRequested := false } :=
  c2_divergence_restore 1 1 [2] ⟨1, 1, 3, [3]⟩ (by decide) (by decide)

/-- Claim C3: `validateData` accepts a record exactly when its magic is
the sentinel, its size is the expected region size, and its stored sum
equals `calculateChecksum` of the record; and that checksum is the sum
of the payload bytes modulo `2^16`. -/
theorem c3_validate_and_checksum (MAGIC SIZE : Nat) (sd : SavedData) :
    (validateData MAGIC SIZE sd = true ↔
      sd.magic = MAGIC ∧ sd.size = SIZE ∧ sd.sum = calculateChecksum SIZE sd) ∧
    (sd.keys.length = SIZE → calculateChecksum SIZE sd = sd.keys.sum % 65536) := by
  constructor
  · unfold validateData
    split_ifs with h1 h2
    · simp only [Bool.false_eq_true, false_iff]
      tauto
    · simp only [Bool.false_eq_true, false_iff]
      tauto
    · push_neg at h1 h2
      exact ⟨fun _ => ⟨h1.1, h1.2, h2⟩, fun _ => rfl⟩
  · intro h
    rw [calculateChecksum, checksumBytes_eq_sum]
    subst h
    rw [regionBytes_self]

/-- Witness for C3: a concrete record of the expected length. -/
theorem c3_witness :
    calculateChecksum 2 ⟨1, 2, 7, [3, 4]⟩ = [3, 4].sum % 65536 :=
  (c3_validate_and_checksum 1 2 ⟨1, 2, 7, [3, 4]⟩).2 rfl

/-- Claim C9: every `Connected` event sets the tracked state to
connected, resets `failureCount` to 0 and triggers
`check(SaveCurrent)`. -/
theorem c9_connected_event (diag : DiagSupport) (st : MonitorState) :
    eventHandler diag st CloudStatusParam.connected =
      ({ st with connected := true, failureCount := 0 }, [Action.checkSaveCurrent]) := rfl

/-- Claim C10: `check` returns false exactly when both allocations
succeed, a backup record loads, it validates, the mode is not
`SaveCurrent`, and its payload differs byte-for-byte from the live
region; in every other case it returns true. -/
theorem c10_result_characterization (MAGIC SIZE : Nat) (checkMode : CheckMode)
    (a1 a2 : Bool) (onDevice : List Nat) (loadOk : Bool) (loaded : SavedData) :
    (check MAGIC SIZE checkMode a1 a2 onDevice loadOk loaded).result = false ↔
      a1 = true ∧ a2 = true ∧ loadOk = true ∧ validateData MAGIC SIZE loaded = true ∧
      checkMode ≠ CheckMode.CHECKMODE_SAVE_CURRENT ∧
      memcmpEq SIZE onDevice loaded.keys = false := by
  cases a1 <;> cases a2 <;> cases loadOk <;> cases checkMode <;>
    by_cases hv : validateData MAGIC SIZE loaded = true <;>
    by_cases hc : memcmpEq SIZE onDevice loaded.keys = true <;>
    simp_all [check, mainBranch]

/-- Counterexample to C4: `check(CheckOnly)` with a backup that fails to
load does save a fresh backup record through the save callback, so
"never saves a backup record" is false. -/
theorem c4_counterexample :
    (check 1 1 CheckMode.CHECKMODE_CHECK_ONLY true true [5] false
        ⟨0, 0, 0, [0]⟩).savedRecord = some ⟨1, 1, 5, [5]⟩ := by decide

/-- Claim C4 as amended: `check(CheckOnly)` never writes the live key
region and never requests a restart, and when a backup record loaded and
validated it also never saves; but on a failed load or an invalid record
it falls into the same save-current path as the other modes. -/
theorem c4_checkonly_frame (MAGIC SIZE : Nat) (a1 a2 : Bool) (onDevice : List Nat)
    (loadOk : Bool) (loaded : SavedData) :
    (check MAGIC SIZE CheckMode.CHECKMODE_CHECK_ONLY a1 a2 onDevice loadOk loaded).liveWritten
        = none ∧
    (check MAGIC SIZE CheckMode.CHECKMODE_CHECK_ONLY a1 a2 onDevice loadOk
        loaded).restartRequested = false ∧
    (loadOk = true → validateData MAGIC SIZE loaded = true →
      (check MAGIC SIZE CheckMode.CHECKMODE_CHECK_ONLY a1 a2 onDevice loadOk
        loaded).savedRecord = none) := by
  cases a1 <;> cases a2 <;> cases loadOk <;>
    by_cases hv : validateData MAGIC SIZE loaded = true <;>
    by_cases hc : memcmpEq SIZE onDevice loaded.keys = true <;>
    simp_all [check, mainBranch]

/-- Witness for the amended C4: a concrete valid loaded record in
`CheckOnly` mode produces no write, no restart and no save. -/
theorem c4_witness :
    (check 1 1 CheckMode.CHECKMODE_CHECK_ONLY true true [2] true
        ⟨1, 1, 3, [3]⟩).liveWritten = none ∧
    (check 1 1 CheckMode.CHECKMODE_CHECK_ONLY true true [2] true
        ⟨1, 1, 3, [3]⟩).restartRequested = false ∧
    (true = true → validateData 1 1 ⟨1, 1, 3, [3]⟩ = true →
      (check 1 1 CheckMode.CHECKMODE_CHECK_ONLY true true [2] true
        ⟨1, 1, 3, [3]⟩).savedRecord = none) :=
  c4_checkonly_frame 1 1 true true [2] true ⟨1, 1, 3, [3]⟩

/-- Counterexample to C5: when the load callback fails but has left the
record buffer holding exactly the valid record matching the live region,
`check(Automatic)` saves nothing at all, so "instead saves a fresh
backup record" is false for that storage state. -/
theorem c5_counterexample :
    (check 1 1 CheckMode.CHECKMODE_AUTOMATIC true true [7] false
        ⟨1, 1, 7, [7]⟩).savedRecord = none := by decide

/-- Claim C5 as amended: when the backup fails to load or fails
validation, `check(Automatic)` does not alter the live key region, does
not request a restart, returns true, and — unless the record buffer left
by the load callback already matches magic, size, checksum and payload
of what would be written — saves a fresh backup record whose magic is
the sentinel, whose size is the region size, whose checksum is computed
from the payload, and whose payload is the current live region. -/
theorem c5_save_current_fallback (MAGIC SIZE : Nat) (onDevice : List Nat)
    (loadOk : Bool) (loaded : SavedData)
    (h1 : loadOk = false ∨ validateData MAGIC SIZE loaded = false)
    (h2 : skipMatches MAGIC SIZE loaded onDevice = false) :
    check MAGIC SIZE CheckMode.CHECKMODE_AUTOMATIC true true onDevice loadOk loaded =
      { result := true, liveWritten := none,
        savedRecord := some { magic := MAGIC, size := SIZE,
                              sum := checksumBytes SIZE (regionBytes SIZE onDevice),
                              keys := regionBytes SIZE onDevice },
        restartRequested := false } := by
  have hfresh : freshRecord MAGIC SIZE loaded onDevice =
      { magic := MAGIC, size := SIZE,
        sum := checksumBytes SIZE (regionBytes SIZE onDevice),
        keys := regionBytes SIZE onDevice } := rfl
  rcases h1 with h1 | h1
  · subst h1
    simp [check, mainBranch, h2, hfresh]
  · cases loadOk <;> simp [check, mainBranch, h1, h2, hfresh]

/-- Witness for the amended C5: a concrete failed load with a
zero-initialized buffer saves the fresh record for the live region. -/
theorem c5_witness :
    check 1 1 CheckMode.CHECKMODE_AUTOMATIC true true [7] false ⟨0, 0, 0, [0]⟩ =
      { result := true, liveWritten := none,
        savedRecord := some { magic := 1, size := 1,
                              sum := checksumBytes 1 (regionBytes 1 [7]),
                              keys := regionBytes 1 [7] },
        restartRequested := false } :=
  c5_save_current_fallback 1 1 [7] false ⟨0, 0, 0, [0]⟩ (Or.inl rfl) (by decide)

/-- Counterexample to C6: when the backup already matches the live
region, two consecutive `check(SaveCurrent)` calls with no intervening
change to the live region perform zero backup writes, not exactly
one. -/
theorem c6_counterexample :
    ((checkWithStore 1 1 CheckMode.CHECKMODE_SAVE_CURRENT [5]
        (some ⟨1, 1, 5, [5]⟩)).1).savedRecord = none ∧
    ((checkWithStore 1 1 CheckMode.CHECKMODE_SAVE_CURRENT [5]
        ((checkWithStore 1 1 CheckMode.CHECKMODE_SAVE_CURRENT [5]
          (some ⟨1, 1, 5, [5]⟩)).2)).1).savedRecord = none := by decide

/-- Claim C6 as amended: two consecutive `check(SaveCurrent)` calls with
no intervening change to the live key region perform at most one backup
write: the second invocation never writes, because the backup present
after the first call already matches the magic, size, checksum and
payload of the record that would be written. -/
theorem c6_second_save_is_noop (MAGIC SIZE : Nat) (onDevice : List Nat)
    (store : Option SavedData) :
    ((checkWithStore MAGIC SIZE CheckMode.CHECKMODE_SAVE_CURRENT onDevice
        ((checkWithStore MAGIC SIZE CheckMode.CHECKMODE_SAVE_CURRENT onDevice
          store).2)).1).savedRecord = none := by
  cases h : (check MAGIC SIZE CheckMode.CHECKMODE_SAVE_CURRENT true true onDevice
      (loadFromStore SIZE store).1 (loadFromStore SIZE store).2).savedRecord with
  | none =>
      simp only [checkWithStore, storeAfterCheck, h]
  | some R =>
      have hR := check_savedRecord_some MAGIC SIZE CheckMode.CHECKMODE_SAVE_CURRENT
        true true onDevice (loadFromStore SIZE store).1 (loadFromStore SIZE store).2 R h
      subst hR
      have hs2 : storeAfterCheck store
          (check MAGIC SIZE CheckMode.CHECKMODE_SAVE_CURRENT true true onDevice
            (loadFromStore SIZE store).1 (loadFromStore SIZE store).2)
          = some (freshRecord MAGIC SIZE (loadFromStore SIZE store).2 onDevice) := by
        unfold storeAfterCheck
        rw [h]
      simp only [checkWithStore]
      rw [hs2]
      simp only [loadFromStore]
      exact check_fresh_no_save MAGIC SIZE onDevice (loadFromStore SIZE store).2

/-- Claim C7: without diagnostic-code support, starting with a zero
failure counter, a `Connecting` event followed by consecutive
`Disconnected` events increments `failureCount` to 1 then 2 with no
recovery, and the third `Disconnected` raises it to 3 and triggers
exactly the recovery sequence: request disconnect, `check(Automatic)`,
then the unconditional restart request. -/
theorem c7_three_strikes (st : MonitorState) (h : st.failureCount = 0) :
    runEvents DiagSupport.noSupport st
        [CloudStatusParam.connecting, CloudStatusParam.disconnected,
          CloudStatusParam.disconnected, CloudStatusParam.disconnected] =
      ({ connected := false, failureCount := 3 }, [[], [], [], recoverySequence]) ∧
    (runEvents DiagSupport.noSupport st
        [CloudStatusParam.connecting, CloudStatusParam.disconnected]).1.failureCount = 1 ∧
    (runEvents DiagSupport.noSupport st
        [CloudStatusParam.connecting, CloudStatusParam.disconnected,
          CloudStatusParam.disconnected]).1.failureCount = 2 := by
  obtain ⟨c, fc⟩ := st
  have h2 : fc = 0 := h
  subst h2
  cases c <;> decide

/-- Witness for C7: the scenario run from the fresh monitor state. -/
theorem c7_witness :
    runEvents DiagSupport.noSupport ⟨false, 0⟩
        [CloudStatusParam.connecting, CloudStatusParam.disconnected,
          CloudStatusParam.disconnected, CloudStatusParam.disconnected] =
      ({ connected := false, failureCount := 3 }, [[], [], [], recoverySequence]) ∧
    (runEvents DiagSupport.noSupport ⟨false, 0⟩
        [CloudStatusParam.connecting, CloudStatusParam.disconnected]).1.failureCount = 1 ∧
    (runEvents DiagSupport.noSupport ⟨false, 0⟩
        [CloudStatusParam.connecting, CloudStatusParam.disconnected,
          CloudStatusParam.disconnected]).1.failureCount = 2 :=
  c7_three_strikes ⟨false, 0⟩ rfl

/-- Counterexample to C8: on a `Disconnected` event with the prior state
connected, the tracked flag stays connected (it is cleared only by a
`Connecting` event), and subsequent consecutive `Disconnected` events
accumulate no failures at all and never trigger recovery. -/
theorem c8_counterexample :
    (eventHandler DiagSupport.noSupport ⟨true, 0⟩
        CloudStatusParam.disconnected).1.connected = true ∧
    runEvents DiagSupport.noSupport ⟨false, 0⟩
        [CloudStatusParam.connected, CloudStatusParam.disconnected,
          CloudStatusParam.disconnected, CloudStatusParam.disconnected] =
      ({ connected := true, failureCount := 0 },
        [[Action.checkSaveCurrent], [], [], []]) := by decide

/-- Claim C8 as amended: a `Disconnected` event delivered while the
tracked state is connected is a complete no-op — the state stays
connected and the failure counter does not move; the counter is
incremented only by `Disconnected` events received while the tracked
state is not connected, i.e. after a `Connecting` event with no
successful connection since. -/
theorem c8_disconnect_guard :
    (∀ (diag : DiagSupport) (st : MonitorState), st.connected = true →
        eventHandler diag st CloudStatusParam.disconnected = (st, [])) ∧
    (∀ st : MonitorState, st.connected = false →
        (eventHandler DiagSupport.noSupport st
          CloudStatusParam.disconnected).1.failureCount = st.failureCount + 1) := by
  constructor
  · intro diag st h
    simp [eventHandler, h]
  · intro st h
    by_cases h3 : st.failureCount + 1 ≥ 3 <;> simp [eventHandler, h, h3]

/-- Witness for the amended C8: concrete states on both sides of the
guard. -/
theorem c8_witness :
    eventHandler DiagSupport.noSupport ⟨true, 5⟩ CloudStatusParam.disconnected
        = (⟨true, 5⟩, []) ∧
    (eventHandler DiagSupport.noSupport ⟨false, 1⟩
        CloudStatusParam.disconnected).1.failureCount = 2 :=
  ⟨c8_disconnect_guard.1 DiagSupport.noSupport ⟨true, 5⟩ rfl,
    c8_disconnect_guard.2 ⟨false, 1⟩ rfl⟩

end DeviceKeyHelperRK
